import Mathlib

/-!
Verification development for the serdeconv crate: uniform conversion
functions and traits between typed values and TOML / JSON / MessagePack
representations. The crate delegates all encoding and decoding to external
codec libraries (the toml crate, serde_json, rmp_serde); this file embeds
the crate modules (src/error.rs, src/convert_toml.rs, src/convert_json.rs,
src/convert_msgpack.rs, src/traits.rs) as pure Lean functions, generic over
the external codecs, which are passed in as explicit records of functions.
Readers, writers and the filesystem are modelled as explicit values and
state. File-writing endpoints are not modelled (no claim mentions them).
-/

set_option autoImplicit false

namespace Serdeconv

/-- Byte sequences: the model of Rust byte slices and Vec of u8. -/
abbrev Bytes : Type := List UInt8

/-- Model of UTF-8 encoding of one unicode scalar value (std behaviour). -/
def utf8EncodeCharBytes (c : Char) : Bytes :=
  let n := c.toNat
  if n < 0x80 then [UInt8.ofNat n]
  else if n < 0x800 then
    [UInt8.ofNat (0xC0 + n / 0x40), UInt8.ofNat (0x80 + n % 0x40)]
  else if n < 0x10000 then
    [UInt8.ofNat (0xE0 + n / 0x1000), UInt8.ofNat (0x80 + n / 0x40 % 0x40),
     UInt8.ofNat (0x80 + n % 0x40)]
  else
    [UInt8.ofNat (0xF0 + n / 0x40000), UInt8.ofNat (0x80 + n / 0x1000 % 0x40),
     UInt8.ofNat (0x80 + n / 0x40 % 0x40), UInt8.ofNat (0x80 + n % 0x40)]

/-- Model of the UTF-8 byte encoding of a string (Rust str::as_bytes). -/
def strBytes (s : String) : Bytes :=
  (s.data.map utf8EncodeCharBytes).flatten

/-- Decodes one UTF-8 scalar value from the front of a byte sequence,
returning the code point and the remaining bytes. Mirrors the validation
rules of Rust std str::from_utf8: continuation bytes must be in
0x80..0xBF, overlong encodings, surrogate code points and values above
0x10FFFF are rejected. -/
def utf8DecodeOne : Bytes → Option (Nat × Bytes)
  | [] => none
  | b :: rest =>
    let n := b.toNat
    if n < 0x80 then some (n, rest)
    else if n < 0xC0 then none
    else if n < 0xE0 then
      match rest with
      | c1 :: r =>
        if 0x80 ≤ c1.toNat ∧ c1.toNat < 0xC0 then
          let v := (n - 0xC0) * 0x40 + (c1.toNat - 0x80)
          if 0x80 ≤ v then some (v, r) else none
        else none
      | [] => none
    else if n < 0xF0 then
      match rest with
      | c1 :: c2 :: r =>
        if (0x80 ≤ c1.toNat ∧ c1.toNat < 0xC0) ∧ (0x80 ≤ c2.toNat ∧ c2.toNat < 0xC0) then
          let v := (n - 0xE0) * 0x1000 + (c1.toNat - 0x80) * 0x40 + (c2.toNat - 0x80)
          if 0x800 ≤ v ∧ ¬(0xD800 ≤ v ∧ v < 0xE000) then some (v, r) else none
        else none
      | _ => none
    else if n < 0xF8 then
      match rest with
      | c1 :: c2 :: c3 :: r =>
        if (0x80 ≤ c1.toNat ∧ c1.toNat < 0xC0) ∧ (0x80 ≤ c2.toNat ∧ c2.toNat < 0xC0) ∧
            (0x80 ≤ c3.toNat ∧ c3.toNat < 0xC0) then
          let v := (n - 0xF0) * 0x40000 + (c1.toNat - 0x80) * 0x1000 +
            (c2.toNat - 0x80) * 0x40 + (c3.toNat - 0x80)
          if 0x10000 ≤ v ∧ v < 0x110000 then some (v, r) else none
        else none
      | _ => none
    else none

/-- Fuelled UTF-8 decoding loop; each step consumes at least one byte, so
fuel equal to the length of the input always suffices. -/
def utf8DecodeAux : Nat → Bytes → Option (List Char)
  | _, [] => some []
  | 0, _ :: _ => none
  | fuel + 1, b :: rest =>
    match utf8DecodeOne (b :: rest) with
    | none => none
    | some (v, r) =>
      match utf8DecodeAux fuel r with
      | none => none
      | some cs => some (Char.ofNat v :: cs)

/-- Model of Rust std str::from_utf8: decodes a byte sequence as UTF-8 text,
or returns none when the bytes are not valid UTF-8. -/
def utf8DecodeStr (b : Bytes) : Option String :=
  (utf8DecodeAux b.length b).map String.mk

/-- Reader model: a streaming byte source, as observed by reading it to the
end, either yields all its bytes or fails with an I/O error message. -/
inductive Reader : Type where
  | bytes (data : Bytes)
  | ioError (e : String)
deriving DecidableEq

/-- Model of Rust Read::read_to_string, as used by from_toml_reader: reads
the whole stream and requires the bytes to be valid UTF-8; a non-UTF-8
stream is an I/O error (ErrorKind::InvalidData) of the read itself. -/
def Reader.readToString : Reader → Except String String
  | .ioError e => .error e
  | .bytes b =>
    match utf8DecodeStr b with
    | some s => .ok s
    | none => .error "stream did not contain valid UTF-8"

/-- Writer model: the bytes successfully written so far, plus whether the
next write fails. -/
structure Writer : Type where
  written : Bytes
  failing : Bool
deriving DecidableEq

/-- Model of Rust Write::write_all on the writer model: appends the bytes,
or fails with an I/O error when the writer is failing. -/
def Writer.writeAll (w : Writer) (data : Bytes) : Except String Unit × Writer :=
  if w.failing then (.error "write failed", w)
  else (.ok (), ⟨w.written ++ data, false⟩)

/-- Filesystem model for File::open: maps a path to the contents of the
file when it exists and is readable. -/
def FileSystem : Type := String → Option Bytes

/-- Model of File::open followed by treating the file as a reader: a
missing or unreadable path is an I/O error; an existing file reads as its
contents. -/
def fileOpen (fs : FileSystem) (path : String) : Except String Reader :=
  match fs path with
  | some data => .ok (Reader.bytes data)
  | none => .error ("No such file or directory: " ++ path)

/-- ErrorKind (src/error.rs): Invalid input versus unknown error. -/
inductive ErrorKind : Type where
  | Invalid
  | Other
deriving DecidableEq

/-- Cause of a failure, tagged by the native error type it originated from
(src/error.rs dispatches on this type). The utf8 tag models
std str::Utf8Error, produced by the UTF-8 check in from_toml_slice. -/
inductive Cause : Type where
  | io (e : String)
  | tomlDe (e : String)
  | tomlSer (e : String)
  | json (e : String)
  | msgpackEncode (e : String)
  | msgpackDecode (e : String)
  | utf8 (e : String)
deriving DecidableEq

/-- Whether a cause is a UTF-8 validation failure. -/
def Cause.isUtf8 : Cause → Bool
  | .utf8 _ => true
  | _ => false

/-- Error (src/error.rs): TrackableError over ErrorKind, a kind plus the
original causing failure. The call-site tracking history kept by the
trackable crate is diagnostic only and is not part of the model. -/
structure Error : Type where
  kind : ErrorKind
  cause : Cause
deriving DecidableEq

/-- IntoTrackableError for std io::Error (src/error.rs): I/O failures map
to ErrorKind::Other. -/
def Error.fromIo (e : String) : Error := ⟨.Other, .io e⟩

/-- IntoTrackableError for toml::de::Error (src/error.rs): TOML decode
failures map to ErrorKind::Invalid. -/
def Error.fromTomlDe (e : String) : Error := ⟨.Invalid, .tomlDe e⟩

/-- IntoTrackableError for toml::ser::Error (src/error.rs): TOML encode
failures map to ErrorKind::Invalid. -/
def Error.fromTomlSer (e : String) : Error := ⟨.Invalid, .tomlSer e⟩

/-- IntoTrackableError for serde_json::Error (src/error.rs): every
serde_json failure, of any category, maps to ErrorKind::Invalid. -/
def Error.fromJson (e : String) : Error := ⟨.Invalid, .json e⟩

/-- IntoTrackableError for rmp_serde::encode::Error (src/error.rs):
MessagePack encode failures map to ErrorKind::Invalid. -/
def Error.fromMsgpackEncode (e : String) : Error := ⟨.Invalid, .msgpackEncode e⟩

/-- IntoTrackableError for rmp_serde::decode::Error (src/error.rs):
MessagePack decode failures map to ErrorKind::Invalid. -/
def Error.fromMsgpackDecode (e : String) : Error := ⟨.Invalid, .msgpackDecode e⟩

/-- Modelled from the spec: the conversion for std str::Utf8Error used by
from_toml_slice is not among the impls in src/error.rs as given; the spec
describes the UTF-8 validation failure as wrapped Invalid (an input
problem), which this model adopts. -/
def Error.fromUtf8 (e : String) : Error := ⟨.Invalid, .utf8 e⟩

/-- Result of this crate (src/lib.rs): success or a unified Error. -/
abbrev Result (T : Type) : Type := Except Error T

/-- Lifts the outcome of an external codec call into the Result of the
crate, wrapping a failure through the given src/error.rs conversion; this
is the map_err(Error::from) pattern used by every adapter. -/
def liftCodec {T : Type} (wrap : String → Error) : Except String T → Result T
  | .ok v => .ok v
  | .error e => .error (wrap e)

/-- External TOML codec (the toml crate), as called by src/convert_toml.rs:
from_str may fail with toml::de::Error and to_string with
toml::ser::Error, both modelled as messages. -/
structure TomlCodec (T : Type) : Type where
  from_str : String → Except String T
  to_string : T → Except String String

/-- External JSON codec (serde_json), as called by src/convert_json.rs.
All its failures are a single error type serde_json::Error, here a
message; from_read consumes a reader (I/O failures surface as the codec
error), to_writer and to_writer_pretty consume a writer likewise. -/
structure JsonCodec (T : Type) : Type where
  from_str : String → Except String T
  from_slice : Bytes → Except String T
  from_read : Reader → Except String T
  to_string : T → Except String String
  to_string_pretty : T → Except String String
  to_writer : T → Writer → Except String Unit × Writer
  to_writer_pretty : T → Writer → Except String Unit × Writer

/-- External MessagePack codec (rmp_serde), as called by
src/convert_msgpack.rs: decoding fails with rmp_serde::decode::Error,
encoding with rmp_serde::encode::Error; from_read consumes a reader and
write consumes a writer, their I/O failures surfacing as codec errors. -/
structure MsgPackCodec (T : Type) : Type where
  from_slice : Bytes → Except String T
  from_read : Reader → Except String T
  to_vec : T → Except String Bytes
  write : T → Writer → Except String Unit × Writer

/-- from_toml_str (src/convert_toml.rs): toml::from_str, failure wrapped
through the toml::de::Error conversion. -/
def from_toml_str {T : Type} (c : TomlCodec T) (toml : String) : Result T :=
  liftCodec Error.fromTomlDe (c.from_str toml)

/-- from_toml_slice (src/convert_toml.rs): str::from_utf8 on the bytes
first (its failure wrapped through Error::from), then from_toml_str. -/
def from_toml_slice {T : Type} (c : TomlCodec T) (toml : Bytes) : Result T :=
  match utf8DecodeStr toml with
  | some s => from_toml_str c s
  | none => .error (Error.fromUtf8 "invalid utf-8 sequence")

/-- from_toml_reader (src/convert_toml.rs): read_to_string on the reader
(failure wrapped through the io::Error conversion), then from_toml_str. -/
def from_toml_reader {T : Type} (c : TomlCodec T) (r : Reader) : Result T :=
  match r.readToString with
  | .ok s => from_toml_str c s
  | .error e => .error (Error.fromIo e)

/-- from_toml_file (src/convert_toml.rs): File::open (failure wrapped
through the io::Error conversion), then from_toml_reader. -/
def from_toml_file {T : Type} (c : TomlCodec T) (fs : FileSystem) (path : String) : Result T :=
  match fileOpen fs path with
  | .ok r => from_toml_reader c r
  | .error e => .error (Error.fromIo e)

/-- to_toml_string (src/convert_toml.rs): toml::to_string, failure wrapped
through the toml::ser::Error conversion. -/
def to_toml_string {T : Type} (c : TomlCodec T) (v : T) : Result String :=
  liftCodec Error.fromTomlSer (c.to_string v)

/-- to_toml_writer (src/convert_toml.rs): first to_toml_string in memory,
then write_all of its bytes to the writer; a write failure is wrapped
through the io::Error conversion. -/
def to_toml_writer {T : Type} (c : TomlCodec T) (v : T) (w : Writer) : Result Unit × Writer :=
  match to_toml_string c v with
  | .error e => (.error e, w)
  | .ok s =>
    match w.writeAll (strBytes s) with
    | (.ok _, w2) => (.ok (), w2)
    | (.error e, w2) => (.error (Error.fromIo e), w2)

/-- from_json_str (src/convert_json.rs): serde_json::from_str, failure
wrapped through the serde_json::Error conversion. -/
def from_json_str {T : Type} (c : JsonCodec T) (json : String) : Result T :=
  liftCodec Error.fromJson (c.from_str json)

/-- from_json_slice (src/convert_json.rs): serde_json::from_slice on the
raw bytes, failure wrapped through the serde_json::Error conversion; the
adapter performs no UTF-8 validation of its own. -/
def from_json_slice {T : Type} (c : JsonCodec T) (json : Bytes) : Result T :=
  liftCodec Error.fromJson (c.from_slice json)

/-- from_json_reader (src/convert_json.rs): serde_json::from_reader on the
reader itself; every failure the codec reports, read failures included, is
wrapped through the serde_json::Error conversion. -/
def from_json_reader {T : Type} (c : JsonCodec T) (r : Reader) : Result T :=
  liftCodec Error.fromJson (c.from_read r)

/-- from_json_file (src/convert_json.rs): File::open (failure wrapped
through the io::Error conversion), then from_json_reader. -/
def from_json_file {T : Type} (c : JsonCodec T) (fs : FileSystem) (path : String) : Result T :=
  match fileOpen fs path with
  | .ok r => from_json_reader c r
  | .error e => .error (Error.fromIo e)

/-- to_json_string (src/convert_json.rs): serde_json::to_string, failure
wrapped through the serde_json::Error conversion. -/
def to_json_string {T : Type} (c : JsonCodec T) (v : T) : Result String :=
  liftCodec Error.fromJson (c.to_string v)

/-- to_json_string_pretty (src/convert_json.rs): serde_json::to_string_pretty,
failure wrapped through the serde_json::Error conversion. -/
def to_json_string_pretty {T : Type} (c : JsonCodec T) (v : T) : Result String :=
  liftCodec Error.fromJson (c.to_string_pretty v)

/-- to_json_writer (src/convert_json.rs): serde_json::to_writer on the
writer itself; every failure the codec reports, write failures included,
is wrapped through the serde_json::Error conversion. -/
def to_json_writer {T : Type} (c : JsonCodec T) (v : T) (w : Writer) : Result Unit × Writer :=
  match c.to_writer v w with
  | (.ok _, w2) => (.ok (), w2)
  | (.error e, w2) => (.error (Error.fromJson e), w2)

/-- to_json_writer_pretty (src/convert_json.rs): serde_json::to_writer_pretty
on the writer itself, failures wrapped through the serde_json::Error
conversion. -/
def to_json_writer_pretty {T : Type} (c : JsonCodec T) (v : T) (w : Writer) :
    Result Unit × Writer :=
  match c.to_writer_pretty v w with
  | (.ok _, w2) => (.ok (), w2)
  | (.error e, w2) => (.error (Error.fromJson e), w2)

/-- from_msgpack_slice (src/convert_msgpack.rs): rmp_serde::from_slice,
failure wrapped through the rmp_serde::decode::Error conversion. -/
def from_msgpack_slice {T : Type} (c : MsgPackCodec T) (bytes : Bytes) : Result T :=
  liftCodec Error.fromMsgpackDecode (c.from_slice bytes)

/-- from_msgpack_reader (src/convert_msgpack.rs): rmp_serde::decode::from_read
on the reader itself; every failure the codec reports, read failures
included, is wrapped through the rmp_serde::decode::Error conversion. -/
def from_msgpack_reader {T : Type} (c : MsgPackCodec T) (r : Reader) : Result T :=
  liftCodec Error.fromMsgpackDecode (c.from_read r)

/-- from_msgpack_file (src/convert_msgpack.rs): File::open (failure wrapped
through the io::Error conversion), then from_msgpack_reader. -/
def from_msgpack_file {T : Type} (c : MsgPackCodec T) (fs : FileSystem) (path : String) :
    Result T :=
  match fileOpen fs path with
  | .ok r => from_msgpack_reader c r
  | .error e => .error (Error.fromIo e)

/-- to_msgpack_vec (src/convert_msgpack.rs): rmp_serde::encode::to_vec,
failure wrapped through the rmp_serde::encode::Error conversion. -/
def to_msgpack_vec {T : Type} (c : MsgPackCodec T) (v : T) : Result Bytes :=
  liftCodec Error.fromMsgpackEncode (c.to_vec v)

/-- to_msgpack_writer (src/convert_msgpack.rs): rmp_serde::encode::write on
the writer itself; every failure the codec reports, write failures
included, is wrapped through the rmp_serde::encode::Error conversion. -/
def to_msgpack_writer {T : Type} (c : MsgPackCodec T) (v : T) (w : Writer) :
    Result Unit × Writer :=
  match c.write v w with
  | (.ok _, w2) => (.ok (), w2)
  | (.error e, w2) => (.error (Error.fromMsgpackEncode e), w2)

/-- Model of the track macro of the trackable crate, applied by every
default trait method in src/traits.rs: it appends a call-site location to
the tracking history of an error as it propagates. The history is
diagnostic only and not part of the Error model, so on the modelled fields
the macro is the identity. -/
def track {T : Type} (r : Result T) : Result T := r

/-- FromToml::from_toml_file default method (src/traits.rs): forwards to
the free function under track. -/
def FromToml.from_toml_file {T : Type} (c : TomlCodec T) (fs : FileSystem) (path : String) :
    Result T :=
  track (Serdeconv.from_toml_file c fs path)

/-- FromToml::from_toml_reader default method (src/traits.rs): forwards to
the free function under track. -/
def FromToml.from_toml_reader {T : Type} (c : TomlCodec T) (r : Reader) : Result T :=
  track (Serdeconv.from_toml_reader c r)

/-- FromToml::from_toml_str default method (src/traits.rs): forwards to
the free function under track. -/
def FromToml.from_toml_str {T : Type} (c : TomlCodec T) (toml : String) : Result T :=
  track (Serdeconv.from_toml_str c toml)

/-- FromToml::from_toml_slice default method (src/traits.rs): forwards to
the free function under track. -/
def FromToml.from_toml_slice {T : Type} (c : TomlCodec T) (toml : Bytes) : Result T :=
  track (Serdeconv.from_toml_slice c toml)

/-- ToToml::to_toml_writer default method (src/traits.rs): forwards to the
free function under track. -/
def ToToml.to_toml_writer {T : Type} (c : TomlCodec T) (v : T) (w : Writer) :
    Result Unit × Writer :=
  let p := Serdeconv.to_toml_writer c v w
  (track p.1, p.2)

/-- ToToml::to_toml_string default method (src/traits.rs): forwards to the
free function under track. -/
def ToToml.to_toml_string {T : Type} (c : TomlCodec T) (v : T) : Result String :=
  track (Serdeconv.to_toml_string c v)

/-- FromJson::from_json_file default method (src/traits.rs): forwards to
the free function under track. -/
def FromJson.from_json_file {T : Type} (c : JsonCodec T) (fs : FileSystem) (path : String) :
    Result T :=
  track (Serdeconv.from_json_file c fs path)

/-- FromJson::from_json_reader default method (src/traits.rs): forwards to
the free function under track. -/
def FromJson.from_json_reader {T : Type} (c : JsonCodec T) (r : Reader) : Result T :=
  track (Serdeconv.from_json_reader c r)

/-- FromJson::from_json_str default method (src/traits.rs): forwards to
the free function under track. -/
def FromJson.from_json_str {T : Type} (c : JsonCodec T) (json : String) : Result T :=
  track (Serdeconv.from_json_str c json)

/-- FromJson::from_json_slice default method (src/traits.rs): forwards to
the free function under track. -/
def FromJson.from_json_slice {T : Type} (c : JsonCodec T) (json : Bytes) : Result T :=
  track (Serdeconv.from_json_slice c json)

/-- ToJson::to_json_writer default method (src/traits.rs): forwards to the
free function under track. -/
def ToJson.to_json_writer {T : Type} (c : JsonCodec T) (v : T) (w : Writer) :
    Result Unit × Writer :=
  let p := Serdeconv.to_json_writer c v w
  (track p.1, p.2)

/-- ToJson::to_json_writer_pretty default method (src/traits.rs): forwards
to the free function under track. -/
def ToJson.to_json_writer_pretty {T : Type} (c : JsonCodec T) (v : T) (w : Writer) :
    Result Unit × Writer :=
  let p := Serdeconv.to_json_writer_pretty c v w
  (track p.1, p.2)

/-- ToJson::to_json_string default method (src/traits.rs): forwards to the
free function under track. -/
def ToJson.to_json_string {T : Type} (c : JsonCodec T) (v : T) : Result String :=
  track (Serdeconv.to_json_string c v)

/-- ToJson::to_json_string_pretty default method (src/traits.rs): forwards
to the free function under track. -/
def ToJson.to_json_string_pretty {T : Type} (c : JsonCodec T) (v : T) : Result String :=
  track (Serdeconv.to_json_string_pretty c v)

/-- Filesystem model for File::create: maps a path to a fresh writer for
the created or truncated file when creation succeeds, and to none when it
fails (missing directory, unwritable location). -/
def CreateFs : Type := String → Option Writer

/-- Model of File::create: a fresh writer for the file, or an I/O error
when the path cannot be created. -/
def fileCreate (cfs : CreateFs) (path : String) : Except String Writer :=
  match cfs path with
  | some w => .ok w
  | none => .error ("could not create file: " ++ path)

/-- to_toml_file (src/convert_toml.rs): File::create (failure wrapped
through the io::Error conversion), then to_toml_writer on the created
file; the final file state is returned for observability. -/
def to_toml_file {T : Type} (c : TomlCodec T) (cfs : CreateFs) (path : String) (v : T) :
    Result Unit × Option Writer :=
  match fileCreate cfs path with
  | .error e => (.error (Error.fromIo e), none)
  | .ok w =>
    match to_toml_writer c v w with
    | (r, w2) => (r, some w2)

/-- to_json_file (src/convert_json.rs): File::create (failure wrapped
through the io::Error conversion), then to_json_writer on the created
file. -/
def to_json_file {T : Type} (c : JsonCodec T) (cfs : CreateFs) (path : String) (v : T) :
    Result Unit × Option Writer :=
  match fileCreate cfs path with
  | .error e => (.error (Error.fromIo e), none)
  | .ok w =>
    match to_json_writer c v w with
    | (r, w2) => (r, some w2)

/-- to_msgpack_file (src/convert_msgpack.rs): File::create (failure
wrapped through the io::Error conversion), then to_msgpack_writer on the
created file. -/
def to_msgpack_file {T : Type} (c : MsgPackCodec T) (cfs : CreateFs) (path : String) (v : T) :
    Result Unit × Option Writer :=
  match fileCreate cfs path with
  | .error e => (.error (Error.fromIo e), none)
  | .ok w =>
    match to_msgpack_writer c v w with
    | (r, w2) => (r, some w2)

/-- ToToml::to_toml_file default method (src/traits.rs): forwards to the
free function under track. -/
def ToToml.to_toml_file {T : Type} (c : TomlCodec T) (cfs : CreateFs) (path : String) (v : T) :
    Result Unit × Option Writer :=
  let p := Serdeconv.to_toml_file c cfs path v
  (track p.1, p.2)

/-- ToJson::to_json_file default method (src/traits.rs): forwards to the
free function under track. -/
def ToJson.to_json_file {T : Type} (c : JsonCodec T) (cfs : CreateFs) (path : String) (v : T) :
    Result Unit × Option Writer :=
  let p := Serdeconv.to_json_file c cfs path v
  (track p.1, p.2)

/-- Modelled from the spec: the FromMsgPack trait is exported by
src/lib.rs but its declaration is absent from the staged src/traits.rs;
per the spec every trait method is a direct forward to the corresponding
free function under track. FromMsgPack::from_msgpack_file. -/
def FromMsgPack.from_msgpack_file {T : Type} (c : MsgPackCodec T) (fs : FileSystem)
    (path : String) : Result T :=
  track (Serdeconv.from_msgpack_file c fs path)

/-- Modelled from the spec: FromMsgPack::from_msgpack_reader, a direct
forward to the free function under track (declaration absent from the
staged src/traits.rs). -/
def FromMsgPack.from_msgpack_reader {T : Type} (c : MsgPackCodec T) (r : Reader) : Result T :=
  track (Serdeconv.from_msgpack_reader c r)

/-- Modelled from the spec: FromMsgPack::from_msgpack_slice, a direct
forward to the free function under track (declaration absent from the
staged src/traits.rs). -/
def FromMsgPack.from_msgpack_slice {T : Type} (c : MsgPackCodec T) (b : Bytes) : Result T :=
  track (Serdeconv.from_msgpack_slice c b)

/-- Modelled from the spec: the ToMsgPack trait is exported by src/lib.rs
but its declaration is absent from the staged src/traits.rs; per the spec
every trait method is a direct forward to the corresponding free function
under track. ToMsgPack::to_msgpack_file. -/
def ToMsgPack.to_msgpack_file {T : Type} (c : MsgPackCodec T) (cfs : CreateFs)
    (path : String) (v : T) : Result Unit × Option Writer :=
  let p := Serdeconv.to_msgpack_file c cfs path v
  (track p.1, p.2)

/-- Modelled from the spec: ToMsgPack::to_msgpack_writer, a direct forward
to the free function under track (declaration absent from the staged
src/traits.rs). -/
def ToMsgPack.to_msgpack_writer {T : Type} (c : MsgPackCodec T) (v : T) (w : Writer) :
    Result Unit × Writer :=
  let p := Serdeconv.to_msgpack_writer c v w
  (track p.1, p.2)

/-- Modelled from the spec: ToMsgPack::to_msgpack_vec, a direct forward to
the free function under track (declaration absent from the staged
src/traits.rs). -/
def ToMsgPack.to_msgpack_vec {T : Type} (c : MsgPackCodec T) (v : T) : Result Bytes :=
  track (Serdeconv.to_msgpack_vec c v)

/-- Foo, the example struct of the crate doc tests (src/lib.rs,
src/traits.rs, src/convert_toml.rs): a string field bar and an unsigned
integer field baz. -/
structure Foo : Type where
  bar : String
  baz : Nat
deriving DecidableEq

/-- Skips blanks, tabs, carriage returns and newlines. -/
def skipWs : List Char → List Char
  | c :: rest => if c = ' ' ∨ c = '\n' ∨ c = '\t' ∨ c = '\r' then skipWs rest else c :: rest
  | [] => []

/-- Consumes one expected character. -/
def expectChar (c : Char) : List Char → Option (List Char)
  | x :: rest => if x = c then some rest else none
  | [] => none

/-- Consumes an expected literal sequence of characters. -/
def dropLit : List Char → List Char → Option (List Char)
  | [], cs => some cs
  | l :: ls, c :: cs => if c = l then dropLit ls cs else none
  | _ :: _, [] => none

/-- Parses the body of a double-quoted string up to the closing quote,
with backslash escapes for quote, backslash and newline. -/
def parseQuotedAux : List Char → List Char → Option (String × List Char)
  | acc, '"' :: rest => some (String.mk acc.reverse, rest)
  | acc, '\\' :: c :: rest =>
    if c = '"' then parseQuotedAux ('"' :: acc) rest
    else if c = '\\' then parseQuotedAux ('\\' :: acc) rest
    else if c = 'n' then parseQuotedAux ('\n' :: acc) rest
    else none
  | acc, c :: rest => if c = '\\' then none else parseQuotedAux (c :: acc) rest
  | _, [] => none

/-- Parses a double-quoted string. -/
def parseQuoted : List Char → Option (String × List Char)
  | '"' :: rest => parseQuotedAux [] rest
  | _ => none

/-- Parses a decimal natural number (at least one digit). -/
def parseNatAux : Nat → Bool → List Char → Option (Nat × List Char)
  | n, seen, c :: rest =>
    if c.isDigit then parseNatAux (n * 10 + (c.toNat - '0'.toNat)) true rest
    else if seen then some (n, c :: rest) else none
  | n, seen, [] => if seen then some (n, []) else none

/-- Parses a decimal natural number from the front of the input. -/
def parseDecNat (cs : List Char) : Option (Nat × List Char) :=
  parseNatAux 0 false cs

/-- Left brace character, written by code point. -/
def lbrace : Char := Char.ofNat 123

/-- Right brace character, written by code point. -/
def rbrace : Char := Char.ofNat 125

/-- Escapes one character for a JSON string literal. -/
def escapeJsonChar (c : Char) : String :=
  if c = '"' then "\\\""
  else if c = '\\' then "\\\\"
  else if c = '\n' then "\\n"
  else String.mk [c]

/-- Renders a JSON string literal. -/
def encodeJsonString (s : String) : String :=
  "\"" ++ String.join (s.data.map escapeJsonChar) ++ "\""

/-- Model of the external serde_json compact encoding of a Foo value, per
the output the crate doc tests record (src/traits.rs): an object with the
fields in declaration order and no whitespace. -/
def fooToJsonStr (f : Foo) : String :=
  "\x7b\"bar\":" ++ encodeJsonString f.bar ++ ",\"baz\":" ++ toString f.baz ++ "\x7d"

/-- Model of the external serde_json pretty encoding of a Foo value:
two-space indentation, one field per line. -/
def fooToJsonPrettyStr (f : Foo) : String :=
  "\x7b\n  \"bar\": " ++ encodeJsonString f.bar ++ ",\n  \"baz\": " ++ toString f.baz ++ "\n\x7d"

/-- Model of the external serde_json parse of a Foo value: an object with
the two expected fields in declaration order, whitespace allowed around
every token. -/
def parseFooJson (cs0 : List Char) : Option Foo := do
  let cs := skipWs cs0
  let cs ← expectChar lbrace cs
  let cs := skipWs cs
  let cs ← dropLit "\"bar\"".data cs
  let cs := skipWs cs
  let cs ← expectChar ':' cs
  let cs := skipWs cs
  let (bar, cs) ← parseQuoted cs
  let cs := skipWs cs
  let cs ← expectChar ',' cs
  let cs := skipWs cs
  let cs ← dropLit "\"baz\"".data cs
  let cs := skipWs cs
  let cs ← expectChar ':' cs
  let cs := skipWs cs
  let (baz, cs) ← parseDecNat cs
  let cs := skipWs cs
  let cs ← expectChar rbrace cs
  let cs := skipWs cs
  if cs.isEmpty then some ⟨bar, baz⟩ else none

/-- Escapes one character for a TOML basic string. -/
def escapeTomlChar (c : Char) : String :=
  if c = '"' then "\\\""
  else if c = '\\' then "\\\\"
  else if c = '\n' then "\\n"
  else String.mk [c]

/-- Renders a TOML basic string. -/
def encodeTomlString (s : String) : String :=
  "\"" ++ String.join (s.data.map escapeTomlChar) ++ "\""

/-- Model of the external toml crate encoding of a Foo value, per the
output the crate doc tests record (src/convert_toml.rs): one key = value
line per field in declaration order, each ended by a newline. -/
def fooToTomlStr (f : Foo) : String :=
  "bar = " ++ encodeTomlString f.bar ++ "\nbaz = " ++ toString f.baz ++ "\n"

/-- Model of the external toml crate parse of a Foo value: the two
expected assignments in declaration order, whitespace and newlines allowed
between tokens. -/
def parseFooToml (cs0 : List Char) : Option Foo := do
  let cs := skipWs cs0
  let cs ← dropLit "bar".data cs
  let cs := skipWs cs
  let cs ← expectChar '=' cs
  let cs := skipWs cs
  let (bar, cs) ← parseQuoted cs
  let cs := skipWs cs
  let cs ← dropLit "baz".data cs
  let cs := skipWs cs
  let cs ← expectChar '=' cs
  let cs := skipWs cs
  let (baz, cs) ← parseDecNat cs
  let cs := skipWs cs
  if cs.isEmpty then some ⟨bar, baz⟩ else none

/-- Big-endian byte rendering of a natural number over the given width. -/
def beBytes (width n : Nat) : Bytes :=
  (List.range width).reverse.map (fun i => UInt8.ofNat (n / 256 ^ i % 256))

/-- Model of the MessagePack encoding of an unsigned integer, per the
MessagePack format family rmp_serde emits: positive fixint below 0x80,
then uint8 / uint16 / uint32 / uint64 markers; values at or above 2 to the
64 do not occur for a Rust usize and are an encode failure here. -/
def msgpackEncodeNat (n : Nat) : Except String Bytes :=
  if n < 0x80 then .ok [UInt8.ofNat n]
  else if n < 0x100 then .ok (0xcc :: beBytes 1 n)
  else if n < 0x10000 then .ok (0xcd :: beBytes 2 n)
  else if n < 0x100000000 then .ok (0xce :: beBytes 4 n)
  else if n < 0x10000000000000000 then .ok (0xcf :: beBytes 8 n)
  else .error "integer out of range"

/-- Model of the MessagePack encoding of a string: fixstr below 32 bytes,
then str8 / str16 markers, followed by the UTF-8 bytes. -/
def msgpackEncodeStr (s : String) : Except String Bytes :=
  let b := strBytes s
  if b.length < 32 then .ok (UInt8.ofNat (0xa0 + b.length) :: b)
  else if b.length < 0x100 then .ok (0xd9 :: beBytes 1 b.length ++ b)
  else if b.length < 0x10000 then .ok (0xda :: beBytes 2 b.length ++ b)
  else .error "string too long for this model"

/-- Reads a big-endian natural number of the given width. -/
def takeBeAux : Nat → Nat → Bytes → Option (Nat × Bytes)
  | acc, 0, b => some (acc, b)
  | acc, k + 1, c :: rest => takeBeAux (acc * 256 + c.toNat) k rest
  | _, _ + 1, [] => none

/-- Takes the first n bytes, returning them and the remainder. -/
def takeBytes : Nat → Bytes → Option (Bytes × Bytes)
  | 0, b => some ([], b)
  | k + 1, c :: rest =>
    match takeBytes k rest with
    | some (front, back) => some (c :: front, back)
    | none => none
  | _ + 1, [] => none

/-- Model of the MessagePack decoding of an unsigned integer: positive
fixint or a uint8 / uint16 / uint32 / uint64 marker. -/
def msgpackDecodeNat : Bytes → Option (Nat × Bytes)
  | [] => none
  | m :: rest =>
    if m.toNat < 0x80 then some (m.toNat, rest)
    else if m = 0xcc then takeBeAux 0 1 rest
    else if m = 0xcd then takeBeAux 0 2 rest
    else if m = 0xce then takeBeAux 0 4 rest
    else if m = 0xcf then takeBeAux 0 8 rest
    else none

/-- Model of the MessagePack decoding of a string: fixstr or a str8 /
str16 marker, then that many bytes which must decode as UTF-8. -/
def msgpackDecodeStr (b : Bytes) : Option (String × Bytes) :=
  match b with
  | [] => none
  | m :: rest =>
    let lenAndRest : Option (Nat × Bytes) :=
      if 0xa0 ≤ m.toNat ∧ m.toNat < 0xc0 then some (m.toNat - 0xa0, rest)
      else if m = 0xd9 then takeBeAux 0 1 rest
      else if m = 0xda then takeBeAux 0 2 rest
      else none
    match lenAndRest with
    | none => none
    | some (len, rest2) =>
      match takeBytes len rest2 with
      | none => none
      | some (front, back) =>
        match utf8DecodeStr front with
        | some s => some (s, back)
        | none => none

/-- Model of the external rmp_serde encoding of a Foo value: structs are
serialized positionally as a two-element array, a fixarray marker followed
by the string field and the integer field. -/
def fooToMsgpackBytes (f : Foo) : Except String Bytes := do
  let sb ← msgpackEncodeStr f.bar
  let nb ← msgpackEncodeNat f.baz
  .ok (0x92 :: sb ++ nb)

/-- Model of the external rmp_serde parse of a Foo value: a two-element
array of a string and an unsigned integer, with no trailing bytes. -/
def fooFromMsgpackBytes (b : Bytes) : Except String Foo :=
  match b with
  | m :: rest =>
    if m = 0x92 then
      match msgpackDecodeStr rest with
      | none => .error "invalid string element"
      | some (bar, rest2) =>
        match msgpackDecodeNat rest2 with
        | none => .error "invalid integer element"
        | some (baz, rest3) =>
          if rest3.isEmpty then .ok ⟨bar, baz⟩ else .error "trailing bytes"
    else .error "expected a two-element array"
  | [] => .error "unexpected end of input"

/-- Model of the external toml crate instantiated at Foo, per the spec
collaborator contract and the doc-test outputs recorded in src. -/
def fooTomlCodec : TomlCodec Foo where
  from_str s :=
    match parseFooToml s.data with
    | some f => .ok f
    | none => .error ("invalid TOML for Foo: " ++ s)
  to_string f := .ok (fooToTomlStr f)

/-- Model of the external serde_json codec instantiated at Foo, per the
spec collaborator contract and the doc-test outputs recorded in src.
Failures of any category, I/O during from_read or to_writer included, are
reported as the single serde_json error type. -/
def fooJsonCodec : JsonCodec Foo where
  from_str s :=
    match parseFooJson s.data with
    | some f => .ok f
    | none => .error ("invalid JSON for Foo: " ++ s)
  from_slice b :=
    match utf8DecodeStr b with
    | some s =>
      match parseFooJson s.data with
      | some f => .ok f
      | none => .error ("invalid JSON for Foo: " ++ s)
    | none => .error "invalid unicode code point in JSON input"
  from_read r :=
    match r with
    | .ioError e => .error ("IO error while reading: " ++ e)
    | .bytes b =>
      match utf8DecodeStr b with
      | some s =>
        match parseFooJson s.data with
        | some f => .ok f
        | none => .error ("invalid JSON for Foo: " ++ s)
      | none => .error "invalid unicode code point in JSON input"
  to_string f := .ok (fooToJsonStr f)
  to_string_pretty f := .ok (fooToJsonPrettyStr f)
  to_writer f w :=
    match w.writeAll (strBytes (fooToJsonStr f)) with
    | (.ok _, w2) => (.ok (), w2)
    | (.error e, w2) => (.error ("IO error while writing: " ++ e), w2)
  to_writer_pretty f w :=
    match w.writeAll (strBytes (fooToJsonPrettyStr f)) with
    | (.ok _, w2) => (.ok (), w2)
    | (.error e, w2) => (.error ("IO error while writing: " ++ e), w2)

/-- Model of the external rmp_serde codec instantiated at Foo, per the
spec collaborator contract. Failures of any category, I/O during
from_read or write included, are reported as the rmp_serde error types. -/
def fooMsgPackCodec : MsgPackCodec Foo where
  from_slice b := fooFromMsgpackBytes b
  from_read r :=
    match r with
    | .ioError e => .error ("IO error while reading marker: " ++ e)
    | .bytes b => fooFromMsgpackBytes b
  to_vec f := fooToMsgpackBytes f
  write f w :=
    match fooToMsgpackBytes f with
    | .error e => (.error e, w)
    | .ok b =>
      match w.writeAll b with
      | (.ok _, w2) => (.ok (), w2)
      | (.error e, w2) => (.error ("IO error while writing: " ++ e), w2)

/-- Model of a TOML codec at a value the format cannot represent (for
example a map with a non-string key): both directions fail with the toml
error types, as the spec collaborator contract allows. -/
def unrepresentableTomlCodec : TomlCodec Foo where
  from_str s := .error ("invalid TOML: " ++ s)
  to_string _ := .error "unsupported type for TOML"

/-- The Foo value of the crate doc tests. -/
def fooExample : Foo := ⟨"aaa", 123⟩

/-- Type names carrying the serde Deserialize capability in the doc-test
scenario of src/lib.rs: the struct Foo derives Deserialize. -/
def deserializeCapable : List String := ["Foo"]

/-- Methods the FromToml trait declares (src/traits.rs), every one with a
default body forwarding to the free function. -/
def fromTomlDefaultMethods : List String :=
  ["from_toml_file", "from_toml_reader", "from_toml_str", "from_toml_slice"]

/-- Methods of FromToml declared without a default body: none, so an impl
of the trait may have an empty body. -/
def fromTomlRequiredMethods : List String := []

/-- FromToml impls declared inside the library itself: none. The library
declares only the trait (src/traits.rs); its doc tests declare the impl at
the use site, as impl FromToml for Foo with an empty body, which also
shows no blanket impl covering every Deserialize type can exist, since it
would conflict with that explicit impl. -/
def libraryFromTomlImpls : List String := []

/-- Rust method resolution in the model: a type has the FromToml methods
exactly when an impl of FromToml for it is declared, either by the library
or by the user. The other five conversion traits of src/traits.rs have the
same shape. -/
def hasFromTomlMethods (userImpls : List String) (t : String) : Bool :=
  (libraryFromTomlImpls ++ userImpls).contains t

/-- C1: for every value of a type that is both serializable and
deserializable and is representable in the target format (the external
codec encodes it and decodes that output back to the same value), decoding
the output of the adapter encoder through the adapter decoder yields
exactly the original value, for TOML, JSON and MessagePack. -/
theorem roundtrip_encode_decode {T : Type} (ct : TomlCodec T) (cj : JsonCodec T)
    (cm : MsgPackCodec T) (v : T) (st sj : String) (bm : Bytes)
    (ht1 : ct.to_string v = .ok st) (ht2 : ct.from_str st = .ok v)
    (hj1 : cj.to_string v = .ok sj) (hj2 : cj.from_str sj = .ok v)
    (hm1 : cm.to_vec v = .ok bm) (hm2 : cm.from_slice bm = .ok v) :
    (to_toml_string ct v).bind (from_toml_str ct) = .ok v ∧
    (to_json_string cj v).bind (from_json_str cj) = .ok v ∧
    (to_msgpack_vec cm v).bind (from_msgpack_slice cm) = .ok v := by
  refine ⟨?_, ?_, ?_⟩ <;>
    simp [to_toml_string, from_toml_str, to_json_string, from_json_str, to_msgpack_vec,
      from_msgpack_slice, liftCodec, ht1, ht2, hj1, hj2, hm1, hm2, Except.bind]

/-- Witness for C1 at the doc-test value and the modelled codecs. -/
theorem roundtrip_encode_decode_witness :
    (to_toml_string fooTomlCodec fooExample).bind (from_toml_str fooTomlCodec)
      = .ok fooExample ∧
    (to_json_string fooJsonCodec fooExample).bind (from_json_str fooJsonCodec)
      = .ok fooExample ∧
    (to_msgpack_vec fooMsgPackCodec fooExample).bind (from_msgpack_slice fooMsgPackCodec)
      = .ok fooExample :=
  roundtrip_encode_decode fooTomlCodec fooJsonCodec fooMsgPackCodec fooExample
    (fooToTomlStr fooExample) (fooToJsonStr fooExample)
    [0x92, 0xa3, 0x61, 0x61, 0x61, 0x7b] rfl rfl rfl rfl rfl rfl

/-- C5: encoding the doc-test struct with fields bar aaa and baz 123 to
JSON yields exactly the compact object string, to TOML exactly the two
key = value lines, and decoding either string back reproduces the
struct. -/
theorem concrete_scenario_doc_test :
    to_json_string fooJsonCodec fooExample = .ok "\x7b\"bar\":\"aaa\",\"baz\":123\x7d" ∧
    to_toml_string fooTomlCodec fooExample = .ok "bar = \"aaa\"\nbaz = 123\n" ∧
    from_json_str fooJsonCodec "\x7b\"bar\":\"aaa\",\"baz\":123\x7d" = .ok fooExample ∧
    from_toml_str fooTomlCodec "bar = \"aaa\"\nbaz = 123\n" = .ok fooExample :=
  ⟨rfl, rfl, rfl, rfl⟩

/-- C9: encoding is deterministic. The embedded encode paths are pure
functions of the codec and the value, mirroring the source, which threads
no mutable state through them, so encoding the same value twice yields
identical output. -/
theorem encode_deterministic {T : Type} (ct : TomlCodec T) (cj : JsonCodec T)
    (cm : MsgPackCodec T) (v : T) :
    to_toml_string ct v = to_toml_string ct v ∧
    to_json_string cj v = to_json_string cj v ∧
    to_msgpack_vec cm v = to_msgpack_vec cm v :=
  ⟨rfl, rfl, rfl⟩

/-- C6: every method of the six conversion traits, the file endpoints and
the MessagePack traits included, returns exactly what the corresponding
free function returns on the same arguments. -/
theorem trait_methods_forward {T : Type} (ct : TomlCodec T) (cj : JsonCodec T)
    (cm : MsgPackCodec T) (fs : FileSystem) (cfs : CreateFs) (path : String)
    (s : String) (b : Bytes) (r : Reader) (v : T) (w : Writer) :
    FromToml.from_toml_file ct fs path = from_toml_file ct fs path ∧
    FromToml.from_toml_reader ct r = from_toml_reader ct r ∧
    FromToml.from_toml_str ct s = from_toml_str ct s ∧
    FromToml.from_toml_slice ct b = from_toml_slice ct b ∧
    ToToml.to_toml_file ct cfs path v = to_toml_file ct cfs path v ∧
    ToToml.to_toml_writer ct v w = to_toml_writer ct v w ∧
    ToToml.to_toml_string ct v = to_toml_string ct v ∧
    FromJson.from_json_file cj fs path = from_json_file cj fs path ∧
    FromJson.from_json_reader cj r = from_json_reader cj r ∧
    FromJson.from_json_str cj s = from_json_str cj s ∧
    FromJson.from_json_slice cj b = from_json_slice cj b ∧
    ToJson.to_json_file cj cfs path v = to_json_file cj cfs path v ∧
    ToJson.to_json_writer cj v w = to_json_writer cj v w ∧
    ToJson.to_json_writer_pretty cj v w = to_json_writer_pretty cj v w ∧
    ToJson.to_json_string cj v = to_json_string cj v ∧
    ToJson.to_json_string_pretty cj v = to_json_string_pretty cj v ∧
    FromMsgPack.from_msgpack_file cm fs path = from_msgpack_file cm fs path ∧
    FromMsgPack.from_msgpack_reader cm r = from_msgpack_reader cm r ∧
    FromMsgPack.from_msgpack_slice cm b = from_msgpack_slice cm b ∧
    ToMsgPack.to_msgpack_file cm cfs path v = to_msgpack_file cm cfs path v ∧
    ToMsgPack.to_msgpack_writer cm v w = to_msgpack_writer cm v w ∧
    ToMsgPack.to_msgpack_vec cm v = to_msgpack_vec cm v :=
  ⟨rfl, rfl, rfl, rfl, rfl, rfl, rfl, rfl, rfl, rfl, rfl, rfl, rfl, rfl, rfl, rfl, rfl,
    rfl, rfl, rfl, rfl, rfl⟩

/-- C2 counterexample: a reader whose read fails, fed to from_json_reader,
yields an error of kind Invalid, not Other as the claim states, because
the codec consumes the reader itself and src/error.rs maps every
serde_json failure to Invalid. -/
theorem from_json_reader_read_failure_not_other :
    from_json_reader fooJsonCodec (Reader.ioError "read failed")
      = .error ⟨.Invalid, .json "IO error while reading: read failed"⟩ ∧
    ErrorKind.Invalid ≠ ErrorKind.Other :=
  ⟨rfl, by decide⟩

/-- C2 amended: from_toml_reader reads the stream itself, so a read
failure yields Other and a parse failure of the text read yields Invalid;
from_json_reader and from_msgpack_reader hand the reader to the codec, so
every failure the codec reports, read failures included, yields
Invalid. -/
theorem reader_error_kinds {T : Type} (ct : TomlCodec T) (cj : JsonCodec T)
    (cm : MsgPackCodec T) (e et ej em : String) (r rj rm : Reader) (s : String)
    (hr : r.readToString = .ok s) (hts : ct.from_str s = .error et)
    (hj : cj.from_read rj = .error ej) (hm : cm.from_read rm = .error em) :
    from_toml_reader ct (Reader.ioError e) = .error (Error.fromIo e) ∧
    (Error.fromIo e).kind = ErrorKind.Other ∧
    from_toml_reader ct r = .error (Error.fromTomlDe et) ∧
    (Error.fromTomlDe et).kind = ErrorKind.Invalid ∧
    from_json_reader cj rj = .error (Error.fromJson ej) ∧
    (Error.fromJson ej).kind = ErrorKind.Invalid ∧
    from_msgpack_reader cm rm = .error (Error.fromMsgpackDecode em) ∧
    (Error.fromMsgpackDecode em).kind = ErrorKind.Invalid := by
  refine ⟨rfl, rfl, ?_, rfl, ?_, rfl, ?_, rfl⟩
  · simp [from_toml_reader, hr, from_toml_str, liftCodec, hts]
  · simp [from_json_reader, liftCodec, hj]
  · simp [from_msgpack_reader, liftCodec, hm]

/-- Witness for C2 amended at the modelled codecs, a truncated TOML
stream and failing readers. -/
theorem reader_error_kinds_witness :
    from_toml_reader fooTomlCodec (Reader.ioError "boom") = .error (Error.fromIo "boom") ∧
    (Error.fromIo "boom").kind = ErrorKind.Other ∧
    from_toml_reader fooTomlCodec (Reader.bytes (strBytes "bar = "))
      = .error (Error.fromTomlDe "invalid TOML for Foo: bar = ") ∧
    (Error.fromTomlDe "invalid TOML for Foo: bar = ").kind = ErrorKind.Invalid ∧
    from_json_reader fooJsonCodec (Reader.ioError "boom")
      = .error (Error.fromJson "IO error while reading: boom") ∧
    (Error.fromJson "IO error while reading: boom").kind = ErrorKind.Invalid ∧
    from_msgpack_reader fooMsgPackCodec (Reader.ioError "boom")
      = .error (Error.fromMsgpackDecode "IO error while reading marker: boom") ∧
    (Error.fromMsgpackDecode "IO error while reading marker: boom").kind
      = ErrorKind.Invalid :=
  reader_error_kinds fooTomlCodec fooJsonCodec fooMsgPackCodec
    "boom" "invalid TOML for Foo: bar = " "IO error while reading: boom"
    "IO error while reading marker: boom"
    (Reader.bytes (strBytes "bar = ")) (Reader.ioError "boom") (Reader.ioError "boom")
    "bar = " rfl rfl rfl rfl

/-- C3 counterexample: a writer whose writes fail, fed to to_json_writer,
yields an error of kind Invalid, not Other as the claim states, because
the codec drives the writer itself and src/error.rs maps every serde_json
failure to Invalid. -/
theorem to_json_writer_write_failure_not_other :
    (to_json_writer fooJsonCodec fooExample ⟨[], true⟩).1
      = .error ⟨.Invalid, .json "IO error while writing: write failed"⟩ ∧
    ErrorKind.Invalid ≠ ErrorKind.Other :=
  ⟨rfl, by decide⟩

/-- C3 amended: to_toml_writer serializes in memory first and then writes,
so an encode failure yields Invalid and a write failure yields Other;
to_json_writer and to_msgpack_writer hand the writer to the codec, so
every failure the codec reports, write failures included, yields
Invalid. -/
theorem writer_error_kinds {T : Type} (ct1 ct2 : TomlCodec T) (cj : JsonCodec T)
    (cm : MsgPackCodec T) (v v2 vj vm : T) (w w2 wj wj2 wm wm2 : Writer)
    (et s ej em : String)
    (henc : ct1.to_string v = .error et)
    (hok : ct2.to_string v2 = .ok s) (hfail : w2.failing = true)
    (hj : cj.to_writer vj wj = (.error ej, wj2))
    (hm : cm.write vm wm = (.error em, wm2)) :
    to_toml_writer ct1 v w = (.error (Error.fromTomlSer et), w) ∧
    (Error.fromTomlSer et).kind = ErrorKind.Invalid ∧
    to_toml_writer ct2 v2 w2 = (.error (Error.fromIo "write failed"), w2) ∧
    (Error.fromIo "write failed").kind = ErrorKind.Other ∧
    to_json_writer cj vj wj = (.error (Error.fromJson ej), wj2) ∧
    (Error.fromJson ej).kind = ErrorKind.Invalid ∧
    to_msgpack_writer cm vm wm = (.error (Error.fromMsgpackEncode em), wm2) ∧
    (Error.fromMsgpackEncode em).kind = ErrorKind.Invalid := by
  refine ⟨?_, rfl, ?_, rfl, ?_, rfl, ?_, rfl⟩
  · simp [to_toml_writer, to_toml_string, liftCodec, henc]
  · simp [to_toml_writer, to_toml_string, liftCodec, hok, Writer.writeAll, hfail]
  · simp [to_json_writer, hj]
  · simp [to_msgpack_writer, hm]

/-- Witness for C3 amended at the modelled codecs, an unrepresentable
value and failing writers. -/
theorem writer_error_kinds_witness :
    to_toml_writer unrepresentableTomlCodec fooExample ⟨[], false⟩
      = (.error (Error.fromTomlSer "unsupported type for TOML"), ⟨[], false⟩) ∧
    (Error.fromTomlSer "unsupported type for TOML").kind = ErrorKind.Invalid ∧
    to_toml_writer fooTomlCodec fooExample ⟨[], true⟩
      = (.error (Error.fromIo "write failed"), ⟨[], true⟩) ∧
    (Error.fromIo "write failed").kind = ErrorKind.Other ∧
    to_json_writer fooJsonCodec fooExample ⟨[], true⟩
      = (.error (Error.fromJson "IO error while writing: write failed"), ⟨[], true⟩) ∧
    (Error.fromJson "IO error while writing: write failed").kind = ErrorKind.Invalid ∧
    to_msgpack_writer fooMsgPackCodec fooExample ⟨[], true⟩
      = (.error (Error.fromMsgpackEncode "IO error while writing: write failed"),
          ⟨[], true⟩) ∧
    (Error.fromMsgpackEncode "IO error while writing: write failed").kind
      = ErrorKind.Invalid :=
  writer_error_kinds unrepresentableTomlCodec fooTomlCodec fooJsonCodec fooMsgPackCodec
    fooExample fooExample fooExample fooExample
    ⟨[], false⟩ ⟨[], true⟩ ⟨[], true⟩ ⟨[], true⟩ ⟨[], true⟩ ⟨[], true⟩
    "unsupported type for TOML" (fooToTomlStr fooExample)
    "IO error while writing: write failed" "IO error while writing: write failed"
    rfl rfl rfl rfl rfl

/-- C4: input the codec rejects as malformed yields an error of kind
Invalid through from_toml_str, from_json_str and from_msgpack_slice, and a
path naming no existing readable file yields an error of kind Other
through each from file function. -/
theorem malformed_invalid_missing_file_other {T : Type} (ct : TomlCodec T)
    (cj : JsonCodec T) (cm : MsgPackCodec T) (s sj : String) (bm : Bytes)
    (fs : FileSystem) (p : String) (et ej em : String)
    (hts : ct.from_str s = .error et) (hjs : cj.from_str sj = .error ej)
    (hms : cm.from_slice bm = .error em) (hp : fs p = none) :
    from_toml_str ct s = .error (Error.fromTomlDe et) ∧
    (Error.fromTomlDe et).kind = ErrorKind.Invalid ∧
    from_json_str cj sj = .error (Error.fromJson ej) ∧
    (Error.fromJson ej).kind = ErrorKind.Invalid ∧
    from_msgpack_slice cm bm = .error (Error.fromMsgpackDecode em) ∧
    (Error.fromMsgpackDecode em).kind = ErrorKind.Invalid ∧
    from_toml_file ct fs p = .error (Error.fromIo ("No such file or directory: " ++ p)) ∧
    from_json_file cj fs p = .error (Error.fromIo ("No such file or directory: " ++ p)) ∧
    from_msgpack_file cm fs p = .error (Error.fromIo ("No such file or directory: " ++ p)) ∧
    (Error.fromIo ("No such file or directory: " ++ p)).kind = ErrorKind.Other := by
  refine ⟨?_, rfl, ?_, rfl, ?_, rfl, ?_, ?_, ?_, rfl⟩
  · simp [from_toml_str, liftCodec, hts]
  · simp [from_json_str, liftCodec, hjs]
  · simp [from_msgpack_slice, liftCodec, hms]
  · simp [from_toml_file, fileOpen, hp]
  · simp [from_json_file, fileOpen, hp]
  · simp [from_msgpack_file, fileOpen, hp]

/-- Witness for C4 at the truncated inputs the spec names and an empty
filesystem. -/
theorem malformed_invalid_missing_file_other_witness :
    from_toml_str fooTomlCodec "bar = "
      = .error (Error.fromTomlDe "invalid TOML for Foo: bar = ") ∧
    (Error.fromTomlDe "invalid TOML for Foo: bar = ").kind = ErrorKind.Invalid ∧
    from_json_str fooJsonCodec "\x7b invalid"
      = .error (Error.fromJson "invalid JSON for Foo: \x7b invalid") ∧
    (Error.fromJson "invalid JSON for Foo: \x7b invalid").kind = ErrorKind.Invalid ∧
    from_msgpack_slice fooMsgPackCodec [0x92, 0xa3]
      = .error (Error.fromMsgpackDecode "invalid string element") ∧
    (Error.fromMsgpackDecode "invalid string element").kind = ErrorKind.Invalid ∧
    from_toml_file fooTomlCodec (fun _ => none) "missing.toml"
      = .error (Error.fromIo ("No such file or directory: " ++ "missing.toml")) ∧
    from_json_file fooJsonCodec (fun _ => none) "missing.toml"
      = .error (Error.fromIo ("No such file or directory: " ++ "missing.toml")) ∧
    from_msgpack_file fooMsgPackCodec (fun _ => none) "missing.toml"
      = .error (Error.fromIo ("No such file or directory: " ++ "missing.toml")) ∧
    (Error.fromIo ("No such file or directory: " ++ "missing.toml")).kind
      = ErrorKind.Other :=
  malformed_invalid_missing_file_other fooTomlCodec fooJsonCodec fooMsgPackCodec
    "bar = " "\x7b invalid" [0x92, 0xa3] (fun _ => none) "missing.toml"
    "invalid TOML for Foo: bar = " "invalid JSON for Foo: \x7b invalid"
    "invalid string element" rfl rfl rfl rfl

/-- C8 counterexample: on a byte slice that is not valid UTF-8,
from_json_slice does not fail by a prior UTF-8 validation: it hands the
bytes to the codec, and the resulting failure is the codec parse error,
whose cause is not a UTF-8 validation failure. -/
theorem from_json_slice_no_utf8_prevalidation :
    utf8DecodeStr [(0xFF : UInt8)] = none ∧
    from_json_slice fooJsonCodec [(0xFF : UInt8)]
      = .error (Error.fromJson "invalid unicode code point in JSON input") ∧
    (Error.fromJson "invalid unicode code point in JSON input").cause.isUtf8 = false :=
  ⟨rfl, rfl, rfl⟩

/-- C8 amended: from_toml_slice validates UTF-8 before any parsing, so on
bytes that are not valid UTF-8 it fails, whatever the codec, with the
UTF-8 validation failure wrapped as Invalid; from_json_slice hands the
bytes to the codec directly, and any failure is the codec error wrapped as
Invalid. -/
theorem slice_utf8_handling {T : Type} (ct : TomlCodec T) (cj : JsonCodec T)
    (b bj : Bytes) (ej : String)
    (hb : utf8DecodeStr b = none) (hj : cj.from_slice bj = .error ej) :
    from_toml_slice ct b = .error (Error.fromUtf8 "invalid utf-8 sequence") ∧
    (Error.fromUtf8 "invalid utf-8 sequence").kind = ErrorKind.Invalid ∧
    (Error.fromUtf8 "invalid utf-8 sequence").cause.isUtf8 = true ∧
    from_json_slice cj bj = .error (Error.fromJson ej) ∧
    (Error.fromJson ej).kind = ErrorKind.Invalid := by
  refine ⟨?_, rfl, rfl, ?_, rfl⟩
  · simp [from_toml_slice, hb]
  · simp [from_json_slice, liftCodec, hj]

/-- Witness for C8 amended at the invalid byte 0xFF. -/
theorem slice_utf8_handling_witness :
    from_toml_slice fooTomlCodec [(0xFF : UInt8)]
      = .error (Error.fromUtf8 "invalid utf-8 sequence") ∧
    (Error.fromUtf8 "invalid utf-8 sequence").kind = ErrorKind.Invalid ∧
    (Error.fromUtf8 "invalid utf-8 sequence").cause.isUtf8 = true ∧
    from_json_slice fooJsonCodec [(0xFF : UInt8)]
      = .error (Error.fromJson "invalid unicode code point in JSON input") ∧
    (Error.fromJson "invalid unicode code point in JSON input").kind
      = ErrorKind.Invalid :=
  slice_utf8_handling fooTomlCodec fooJsonCodec [(0xFF : UInt8)] [(0xFF : UInt8)]
    "invalid unicode code point in JSON input" rfl rfl

/-- C10: when the TOML codec cannot serialize the value, to_toml_writer
fails with kind Invalid and leaves the writer untouched, because it
serializes to an in-memory string before any write occurs. -/
theorem to_toml_writer_atomic_on_encode_failure {T : Type} (ct : TomlCodec T) (v : T)
    (w : Writer) (e : String) (h : ct.to_string v = .error e) :
    to_toml_writer ct v w = (.error (Error.fromTomlSer e), w) ∧
    (Error.fromTomlSer e).kind = ErrorKind.Invalid ∧
    (to_toml_writer ct v w).2.written = w.written := by
  have hw : to_toml_writer ct v w = (.error (Error.fromTomlSer e), w) := by
    simp [to_toml_writer, to_toml_string, liftCodec, h]
  exact ⟨hw, rfl, by rw [hw]⟩

/-- Witness for C10 at the unrepresentable-value codec and a fresh
writer. -/
theorem to_toml_writer_atomic_on_encode_failure_witness :
    to_toml_writer unrepresentableTomlCodec fooExample ⟨[], false⟩
      = (.error (Error.fromTomlSer "unsupported type for TOML"), ⟨[], false⟩) ∧
    (Error.fromTomlSer "unsupported type for TOML").kind = ErrorKind.Invalid ∧
    (to_toml_writer unrepresentableTomlCodec fooExample ⟨[], false⟩).2.written
      = Writer.written ⟨[], false⟩ :=
  to_toml_writer_atomic_on_encode_failure unrepresentableTomlCodec fooExample
    ⟨[], false⟩ "unsupported type for TOML" rfl

/-- C7 counterexample: the struct Foo of the doc tests carries the serde
Deserialize capability, yet with no impl of FromToml declared for it the
conversion methods are not available; the library grants no blanket
impl. -/
theorem no_blanket_from_toml_impl :
    deserializeCapable.contains "Foo" = true ∧
    hasFromTomlMethods [] "Foo" = false := by
  decide

/-- C7 amended: the conversion traits declare every method with a default
body, so a type with the capability gains all the methods by declaring a
single empty impl of the trait; that explicit per-type impl is required,
the methods are not blanket-granted. Shown for FromToml; the other
conversion traits of src/traits.rs have the same shape. -/
theorem empty_impl_grants_methods (userImpls : List String) (t : String)
    (h : userImpls.contains t = true) :
    hasFromTomlMethods userImpls t = true ∧ fromTomlRequiredMethods = [] := by
  refine ⟨?_, rfl⟩
  simpa [hasFromTomlMethods, libraryFromTomlImpls] using h

/-- Witness for C7 amended: declaring the empty impl for Foo makes the
methods available. -/
theorem empty_impl_grants_methods_witness :
    hasFromTomlMethods ["Foo"] "Foo" = true ∧ fromTomlRequiredMethods = [] :=
  empty_impl_grants_methods ["Foo"] "Foo" (by decide)

end Serdeconv
